import Mathlib

/-!
# Verification of the lsw-slackbot scheduling core

Shallow embedding of `src/lsw_slackbot/util.py` (the `Periodic`, `Scheduled`
and `RunOnce` task classes) and of `check_memory` from
`src/lsw_slackbot/slack.py`, together with theorems settling the spec claims.

Wall-clock instants and durations are modelled as exact rationals (seconds,
matching `datetime.timedelta.total_seconds()` arithmetic); calendar datetimes
are modelled field-by-field as natural numbers, matching
`datetime.datetime(year, month, day, hour, minute, second, microsecond)`.
-/

namespace LswSlackbot

/-! ## Periodic._run loop iteration (util.py lines 59-76)

One iteration of the `while True:` loop: `next_run = now + time_interval` is
computed before `func` is awaited; the work then takes `work_duration`
seconds; afterwards `sleep_time = (next_run - now_after_work)` and the loop
sleeps only when `sleep_time > 0`. -/

structure IterResult where
  next_run : ℚ
  slept : Bool
  end_time : ℚ
  deriving Repr, DecidableEq

def periodicIterate (time_interval now work_duration : ℚ) : IterResult :=
  let next_run := now + time_interval
  let now_after_work := now + work_duration
  let sleep_time := next_run - now_after_work
  if sleep_time > 0 then
    { next_run := next_run, slept := true, end_time := now_after_work + sleep_time }
  else
    { next_run := next_run, slept := false, end_time := now_after_work }

/-! ## Scheduled._calculate_seconds_to_next_run (util.py lines 123-134) -/

def calculateSecondsToNextRun (first_run time_interval now : ℚ) : ℚ :=
  let first_to_now := now - first_run
  let intervals_to_add : ℤ := ⌊first_to_now / time_interval⌋ + 1
  let seconds_to_next_run := (first_run + (intervals_to_add : ℚ) * time_interval) - now
  if seconds_to_next_run < 0 then 0 else seconds_to_next_run

/-! ## Calendar datetimes and partial anchor dicts (util.py lines 79-121) -/

structure PyDateTime where
  year : ℕ
  month : ℕ
  day : ℕ
  hour : ℕ
  minute : ℕ
  second : ℕ
  microsecond : ℕ
  deriving Repr, DecidableEq

/-- A `first_run` dict whose keys range over `_POSSIBLE_DATETIME_KWARGS`. -/
structure FirstRunDict where
  year : Option ℕ := none
  month : Option ℕ := none
  day : Option ℕ := none
  hour : Option ℕ := none
  minute : Option ℕ := none
  second : Option ℕ := none
  microsecond : Option ℕ := none
  deriving Repr, DecidableEq

/-- `Scheduled.get_smallest_defined_time_interval`: scans
`_POSSIBLE_DATETIME_KWARGS[::-1]` (microsecond first) and returns the reversed
index `i` of the first key present, except that `i < 3` is clamped up to `3`
("we always have to at least assign a year, month and day at minimum"). -/
def get_smallest_defined_time_interval (d : FirstRunDict) : Except String ℕ :=
  if d.microsecond.isSome then .ok 3
  else if d.second.isSome then .ok 3
  else if d.minute.isSome then .ok 3
  else if d.hour.isSome then .ok 3
  else if d.day.isSome then .ok 4
  else if d.month.isSome then .ok 5
  else if d.year.isSome then .ok 6
  else .error "no valid time definitions were found in the first_run dictionary specifier!"

/-- Merge of the fill-from-`now` dict with the user dict: the user value wins
(`first_run_dict_final.update(first_run_dict)`); the `now` value is used only
when the field position is below the computed index (`now_tuple[:idx]`). -/
def mergedField (d_field : Option ℕ) (position idx now_value : ℕ) : Option ℕ :=
  match d_field with
  | some v => some v
  | none => if position < idx then some now_value else none

/-- `Scheduled.dict_to_first_run_datetime`, up to range validation: this
computes exactly the field values handed to
`datetime.datetime(**first_run_dict_final)`, which requires year, month and
day and defaults hour, minute, second and microsecond to `0`.  The CPython
constructor additionally validates the field ranges; that check is modelled
by `pyDatetimeValid`, and `dict_to_first_run_datetime_checked` below
composes the two, embedding lines 97-109 in full. -/
def dict_to_first_run_datetime (now : PyDateTime) (d : FirstRunDict) :
    Except String PyDateTime :=
  match get_smallest_defined_time_interval d with
  | .error e => .error e
  | .ok idx =>
    match mergedField d.year 0 idx now.year, mergedField d.month 1 idx now.month,
        mergedField d.day 2 idx now.day with
    | some y, some mo, some da =>
      .ok { year := y, month := mo, day := da,
            hour := (mergedField d.hour 3 idx now.hour).getD 0,
            minute := (mergedField d.minute 4 idx now.minute).getD 0,
            second := (mergedField d.second 5 idx now.second).getD 0,
            microsecond := (mergedField d.microsecond 6 idx now.microsecond).getD 0 }
    | _, _, _ => .error "datetime missing a required argument"

/-- CPython leap-year rule (`datetime._is_leap`). -/
def isLeapYear (y : ℕ) : Bool :=
  y % 4 == 0 && (y % 100 != 0 || y % 400 == 0)

/-- CPython `datetime._days_in_month`. -/
def daysInMonth (y mo : ℕ) : ℕ :=
  if mo = 2 then (if isLeapYear y then 29 else 28)
  else if mo = 4 ∨ mo = 6 ∨ mo = 9 ∨ mo = 11 then 30
  else 31

/-- The range validation the CPython `datetime.datetime` constructor
performs on its fields: `MINYEAR = 1 ≤ year ≤ MAXYEAR = 9999`,
`1 ≤ month ≤ 12`, `1 ≤ day ≤ days_in_month(year, month)`, `hour ≤ 23`,
`minute ≤ 59`, `second ≤ 59`, `microsecond ≤ 999999` (fields are naturals
here, so the lower bounds of the sub-day fields are automatic). -/
def pyDatetimeValid (dt : PyDateTime) : Bool :=
  decide (1 ≤ dt.year ∧ dt.year ≤ 9999 ∧ 1 ≤ dt.month ∧ dt.month ≤ 12 ∧
    1 ≤ dt.day ∧ dt.day ≤ daysInMonth dt.year dt.month ∧
    dt.hour ≤ 23 ∧ dt.minute ≤ 59 ∧ dt.second ≤ 59 ∧ dt.microsecond ≤ 999999)

/-- `Scheduled.dict_to_first_run_datetime` in full (util.py lines 97-109):
the dict merge and field defaulting of `dict_to_first_run_datetime`,
followed by the range validation the `datetime.datetime(...)` constructor
call performs, raising `ValueError` on an out-of-range field. -/
def dict_to_first_run_datetime_checked (now : PyDateTime) (d : FirstRunDict) :
    Except String PyDateTime :=
  match dict_to_first_run_datetime now d with
  | .error e => .error e
  | .ok dt => if pyDatetimeValid dt = true then .ok dt
              else .error "ValueError: datetime field out of range"

/-! ## Task lifecycle: start / stop (util.py lines 25-50)

`start()` sets `is_started = True` and stores a fresh asyncio task handle in
`self._task` when not already started; `stop()` cancels and awaits that
handle when started and sets `is_started = False` — it never assigns
`self._task = None`.  A handle is modelled by an identity plus its cancelled
flag; `stop()` on a started task whose handle were `None` would raise an
`AttributeError` (`NoneType` has no `cancel`), hence the `Except`. -/

structure TaskHandle where
  id : ℕ
  cancelled : Bool
  deriving Repr, DecidableEq

structure TaskState where
  is_started : Bool
  task : Option TaskHandle
  deriving Repr, DecidableEq

/-- The state the `Periodic.__init__` constructor leaves behind
(`self.is_started = False`, `self._task = None`). -/
def periodicInitState : TaskState := { is_started := false, task := none }

/-- `Periodic.start` (lines 38-42): guarded on `not self.is_started`. -/
def taskStart (handle_id : ℕ) (s : TaskState) : TaskState :=
  if s.is_started = false then
    { is_started := true, task := some { id := handle_id, cancelled := false } }
  else s

/-- `Periodic.stop` (lines 44-50): guarded on `self.is_started`; cancels the
stored handle and awaits it, leaving the (now cancelled) handle in place. -/
def taskStop (s : TaskState) : Except String TaskState :=
  if s.is_started = true then
    match s.task with
    | some h => .ok { is_started := false, task := some { h with cancelled := true } }
    | none => .error "AttributeError: NoneType object has no attribute cancel"
  else .ok s

/-- States reachable from construction by completed `start()` / `stop()`
calls, each `start` being handed some fresh handle id by the event loop. -/
inductive Reachable : TaskState → Prop
  | init : Reachable periodicInitState
  | start (h : ℕ) {s : TaskState} : Reachable s → Reachable (taskStart h s)
  | stop {s s2 : TaskState} : Reachable s → taskStop s = .ok s2 → Reachable s2

/-- The invariant claimed by the spec: a task is either fully stopped (no
handle, `is_started` false) or fully running (handle present, `is_started`
true). -/
def fullyStoppedOrRunning (s : TaskState) : Prop :=
  (s.is_started = false ∧ s.task = none) ∨ (s.is_started = true ∧ s.task.isSome = true)

/-! ## Cooperative cancellation of the background loop (util.py lines 44-76,
main.py lines 128-130)

The `Periodic._run` coroutine suspends at three points: the optional
first-run sleep (line 57), the `await self.func(...)` (line 71), and the
inter-iteration `asyncio.sleep` (line 76).  asyncio delivers a pending
`cancel()` at the task's current suspension point, which unwinds the loop
(`stop` suppresses the `CancelledError`).  A work-function invocation event
is the transition that enters `func`. -/

inductive AsyncPC
  | sleepingFirst
  | inFunc
  | sleepingLoop
  | done
  deriving Repr, DecidableEq

/-- One scheduler step of the `_run` task from a suspension point:
`cancel_requested` is whether `cancel()` has been called, `sleep_positive` is
whether the computed `sleep_time` after the work is positive (line 75).
Returns the next suspension point and whether `func` was invoked. -/
def loopStep (cancel_requested sleep_positive : Bool) : AsyncPC → AsyncPC × Bool
  | .sleepingFirst => if cancel_requested then (.done, false) else (.inFunc, true)
  | .inFunc =>
      if cancel_requested then (.done, false)
      else if sleep_positive then (.sleepingLoop, false) else (.inFunc, true)
  | .sleepingLoop => if cancel_requested then (.done, false) else (.inFunc, true)
  | .done => (.done, false)

/-- Run the task for a list of scheduler steps, collecting the invocation
flags of each step. -/
def runTrace (pc : AsyncPC) : List (Bool × Bool) → AsyncPC × List Bool
  | [] => (pc, [])
  | (c, sp) :: rest =>
    let step := loopStep c sp pc
    let rec_result := runTrace step.1 rest
    (rec_result.1, step.2 :: rec_result.2)

/-- `Periodic.stop` on the running loop: request cancellation and await the
task until it acknowledges (reaches `done`). -/
def stopTask (pc : AsyncPC) : AsyncPC := (loopStep true false pc).1

/-- `_stop_repeated_tasks` (main.py lines 128-130): `stop()` each task in
list order, awaiting full cancellation acknowledgment of each. -/
def stopAllTasks (pcs : List AsyncPC) : List AsyncPC := pcs.map stopTask

/-! ## Constructor validation (util.py lines 19-23, 82-95, 111-121) -/

/-- The `time_interval` argument: an `int`, a `datetime.timedelta` (carried
as its `total_seconds()`), or any other Python object. -/
inductive TimeIntervalArg
  | intArg (n : ℤ)
  | timedeltaArg (seconds : ℚ)
  | otherArg
  deriving Repr, DecidableEq

/-- The type dispatch of lines 19-23 of `Periodic.__init__`: normalize an
`int` to a timedelta, reject anything that is neither.  The range check that
`datetime.timedelta(seconds=n)` itself performs on the `int` path is modelled
by `timedeltaFromSeconds`, and `ensureTimeIntervalChecked` below composes
the two, embedding lines 19-23 in full. -/
def ensureTimeInterval : TimeIntervalArg → Except String ℚ
  | .intArg n => .ok (n : ℚ)
  | .timedeltaArg s => .ok s
  | .otherArg => .error "periodic time for scheduling must be an int or a datetime.timedelta object."

/-- CPython `datetime.timedelta(seconds=n)`: the argument is normalized to
whole days by floor division and the constructor raises `OverflowError` when
the day count exceeds `999999999` in magnitude (`timedelta.max` /
`timedelta.min`). -/
def timedeltaFromSeconds (n : ℤ) : Except String ℚ :=
  if -999999999 ≤ Int.fdiv n 86400 ∧ Int.fdiv n 86400 ≤ 999999999 then .ok (n : ℚ)
  else .error "OverflowError: days is too large"

/-- Lines 19-23 of `Periodic.__init__` in full: the type dispatch plus the
`timedelta` constructor's own overflow check on the `int` path. -/
def ensureTimeIntervalChecked : TimeIntervalArg → Except String ℚ
  | .intArg n => timedeltaFromSeconds n
  | .timedeltaArg s => .ok s
  | .otherArg => .error "periodic time for scheduling must be an int or a datetime.timedelta object."

/-- The `first_run` argument of `Scheduled.__init__`, per its type annotation
`Union[datetime.datetime, dict]`. -/
inductive FirstRunArg
  | datetimeArg (dt : PyDateTime)
  | dictArg (d : FirstRunDict)
  deriving Repr, DecidableEq

/-- Whether a `first_run` dict contains at least one recognized key of
`_POSSIBLE_DATETIME_KWARGS`. -/
def firstRunDictHasField (d : FirstRunDict) : Bool :=
  d.year.isSome || d.month.isSome || d.day.isSome || d.hour.isSome ||
    d.minute.isSome || d.second.isSome || d.microsecond.isSome

/-! ## kwargs handling (util.py lines 15, 33-36, 85, 95, 136-139) -/

/-- The `kwargs` constructor argument: `None`, a real dict (modelled by its
list of keys), or the empty tuple `tuple()` that `Scheduled.__init__` uses as
its default value. -/
inductive KwargsArg
  | noneArg
  | dictArg (keys : List String)
  | emptyTupleArg
  deriving Repr, DecidableEq

/-- Lines 33-36 of `Periodic.__init__`: only `None` is normalized to `{}`;
every other value is stored as-is. -/
def periodicStoreKwargs : KwargsArg → KwargsArg
  | .noneArg => .dictArg []
  | .dictArg keys => .dictArg keys
  | .emptyTupleArg => .emptyTupleArg

/-- `Scheduled.__init__`'s default value for `kwargs` (line 85): `tuple()`. -/
def scheduledKwargsDefault : KwargsArg := .emptyTupleArg

/-- Python `f(**kwargs)` unpacking: succeeds exactly on mappings, raising
`TypeError` on a tuple (or on `None`). -/
def unpackAsKwargs : KwargsArg → Except String (List String)
  | .dictArg keys => .ok keys
  | .emptyTupleArg => .error "argument after ** must be a mapping, not tuple"
  | .noneArg => .error "argument after ** must be a mapping, not NoneType"

/-- The fields of a freshly constructed `Scheduled` object that the claims
inspect. -/
structure ScheduledState where
  time_interval : ℚ
  first_run : PyDateTime
  kwargs : KwargsArg
  is_started : Bool
  task : Option TaskHandle
  deriving Repr, DecidableEq

/-- `Scheduled.__init__` (lines 82-95): resolve a dict `first_run` first
(raising `ValueError` when it holds no recognized key), then run
`Periodic.__init__` via `super()`, which validates `time_interval` and stores
`kwargs` (normalizing only `None`). -/
def scheduledInit (now : PyDateTime) (first_run : FirstRunArg)
    (time_interval : TimeIntervalArg) (kwargs : KwargsArg) :
    Except String ScheduledState :=
  match first_run with
  | .dictArg d =>
    match dict_to_first_run_datetime now d with
    | .error e => .error e
    | .ok fr =>
      match ensureTimeInterval time_interval with
      | .error e => .error e
      | .ok ti =>
        .ok { time_interval := ti, first_run := fr,
              kwargs := periodicStoreKwargs kwargs, is_started := false, task := none }
  | .datetimeArg dt =>
    match ensureTimeInterval time_interval with
    | .error e => .error e
    | .ok ti =>
      .ok { time_interval := ti, first_run := dt,
            kwargs := periodicStoreKwargs kwargs, is_started := false, task := none }

/-- `Scheduled` construction with the `kwargs` parameter left at its default. -/
def scheduledInitDefault (now : PyDateTime) (first_run : FirstRunArg)
    (time_interval : TimeIntervalArg) : Except String ScheduledState :=
  scheduledInit now first_run time_interval scheduledKwargsDefault

/-- `Scheduled.__init__` (lines 82-95) in full: as `scheduledInit`, but with
the CPython-internal validation the constructors it calls perform —
`datetime.datetime(**first_run_dict_final)`'s field-range check (line 109)
and `timedelta(seconds=n)`'s overflow check (line 21).  An anchor passed as
an already-constructed `datetime` object is not re-validated. -/
def scheduledInitChecked (now : PyDateTime) (first_run : FirstRunArg)
    (time_interval : TimeIntervalArg) (kwargs : KwargsArg) :
    Except String ScheduledState :=
  match first_run with
  | .dictArg d =>
    match dict_to_first_run_datetime_checked now d with
    | .error e => .error e
    | .ok fr =>
      match ensureTimeIntervalChecked time_interval with
      | .error e => .error e
      | .ok ti =>
        .ok { time_interval := ti, first_run := fr,
              kwargs := periodicStoreKwargs kwargs, is_started := false, task := none }
  | .datetimeArg dt =>
    match ensureTimeIntervalChecked time_interval with
    | .error e => .error e
    | .ok ti =>
      .ok { time_interval := ti, first_run := dt,
            kwargs := periodicStoreKwargs kwargs, is_started := false, task := none }

/-- `Scheduled._run` (lines 136-139) per cycle evaluates
`self.func(*self.args, **self.kwargs)`: the `**` unpacking of the stored
kwargs happens on every attempted invocation. -/
def scheduledInvokeFunc (s : ScheduledState) : Except String (List String) :=
  unpackAsKwargs s.kwargs

/-! ## RunOnce (util.py lines 52-57 and 142-152) -/

/-- `Periodic._sleep_until_first_run` (lines 52-57): sleep the positive part
of `first_run - now`, or not at all when `first_run` is `None`. -/
def sleep_until_first_run (first_run : Option ℚ) (now : ℚ) : ℚ :=
  match first_run with
  | none => 0
  | some fr =>
    let initial_sleep_time := fr - now
    if initial_sleep_time > 0 then initial_sleep_time else 0

structure RunOnceResult where
  delay : ℚ
  invocation_times : List ℚ
  deriving Repr, DecidableEq

/-- `RunOnce._run` (lines 148-152): the optional first-run sleep, then a
single invocation of `func`; the coroutine then returns — no loop. -/
def runOnceRun (first_run : Option ℚ) (now : ℚ) : RunOnceResult :=
  let delay := sleep_until_first_run first_run now
  { delay := delay, invocation_times := [now + delay] }

/-! ## check_memory (slack.py lines 64-101)

Warning side effects are abstracted to the returned flag; the global
`_LAST_MEMORY_FRACTION` is threaded explicitly: the function returns
(warning sent?, new value of `_LAST_MEMORY_FRACTION`).  Line 101 assigns the
global unconditionally before the function returns. -/

def check_memory (last_memory_fraction current_usage memory_warn_fraction : ℚ) :
    Bool × ℚ :=
  if last_memory_fraction < memory_warn_fraction then
    if current_usage > memory_warn_fraction then
      (true, current_usage)
    else
      (false, current_usage)
  else
    (false, current_usage)

/-- Whether a Python call modelled as `Except` completed without raising. -/
def exceptIsOk {α : Type} : Except String α → Bool
  | .ok _ => true
  | .error _ => false

/-! ## Theorems -/

/-- C1: each `Periodic._run` iteration computes `next_run = now + interval`
before invoking the work function (so `next_run` does not depend on how long
the work takes); after the work it sleeps for `next_run - now_after_work`
only when that difference is positive, and when the difference is zero or
negative (work took at least the interval) it proceeds immediately without
sleeping. -/
theorem periodic_iteration_drift_correction (time_interval now d d2 : ℚ) :
    (periodicIterate time_interval now d).next_run = now + time_interval ∧
    (periodicIterate time_interval now d).next_run =
      (periodicIterate time_interval now d2).next_run ∧
    (d < time_interval →
      periodicIterate time_interval now d =
        { next_run := now + time_interval, slept := true, end_time := now + time_interval }) ∧
    (time_interval ≤ d →
      periodicIterate time_interval now d =
        { next_run := now + time_interval, slept := false, end_time := now + d }) := by
  simp only [periodicIterate]
  refine ⟨by split <;> rfl, by split <;> split <;> rfl, ?_, ?_⟩
  · intro hd
    rw [if_pos (by linarith)]
    simp only [IterResult.mk.injEq, true_and]
    ring
  · intro hd
    rw [if_neg (by linarith)]

/-- Closed instance of C1 at `interval = 2`, `now = 0`, work durations `1`
(sleeps out the rest of the interval) and `3` (overran: no sleep). -/
theorem periodic_iteration_drift_correction_witness :
    periodicIterate 2 0 1 = { next_run := 2, slept := true, end_time := 2 } ∧
    periodicIterate 2 0 3 = { next_run := 2, slept := false, end_time := 3 } := by
  constructor
  · have h := (periodic_iteration_drift_correction 2 0 1 3).2.2.1 (by norm_num)
    rw [h]
    norm_num
  · have h := (periodic_iteration_drift_correction 2 0 3 1).2.2.2 (by norm_num)
    rw [h]
    norm_num

/-- C2: for a `Scheduled` task with anchor `first_run` and positive interval,
`_calculate_seconds_to_next_run` returns exactly
`(first_run + (⌊(now - first_run)/interval⌋ + 1) * interval) - now` (the
clamp to zero never fires because this value is positive), the result is
never negative, the corresponding wake time is strictly after `now`, and it
is the smallest anchor-plus-integer-multiple-of-the-interval strictly after
`now`. -/
theorem scheduled_seconds_to_next_run_correct (first_run now time_interval : ℚ)
    (hI : 0 < time_interval) :
    0 ≤ calculateSecondsToNextRun first_run time_interval now ∧
    calculateSecondsToNextRun first_run time_interval now =
      (first_run + ((⌊(now - first_run) / time_interval⌋ + 1 : ℤ) : ℚ) * time_interval) - now ∧
    now < first_run + ((⌊(now - first_run) / time_interval⌋ + 1 : ℤ) : ℚ) * time_interval ∧
    (∀ j : ℤ, now < first_run + (j : ℚ) * time_interval →
      ⌊(now - first_run) / time_interval⌋ + 1 ≤ j) := by
  have hne : time_interval ≠ 0 := ne_of_gt hI
  set x : ℚ := (now - first_run) / time_interval with hx
  have h1 : x < ((⌊x⌋ + 1 : ℤ) : ℚ) := by
    push_cast
    exact Int.lt_floor_add_one x
  have hkey : now - first_run < ((⌊x⌋ + 1 : ℤ) : ℚ) * time_interval := by
    calc now - first_run = x * time_interval := (div_mul_cancel₀ _ hne).symm
      _ < ((⌊x⌋ + 1 : ℤ) : ℚ) * time_interval := mul_lt_mul_of_pos_right h1 hI
  have hcalc : calculateSecondsToNextRun first_run time_interval now =
      (first_run + ((⌊x⌋ + 1 : ℤ) : ℚ) * time_interval) - now := by
    simp only [calculateSecondsToNextRun]
    rw [← hx, if_neg (by push_cast at hkey ⊢; linarith)]
  refine ⟨by rw [hcalc]; linarith, hcalc, by linarith, ?_⟩
  intro j hj
  have hxj : x < (j : ℚ) := by
    rw [hx, div_lt_iff₀ hI]
    linarith
  have := Int.floor_lt.mpr hxj
  omega

/-- Closed instance of C2 at anchor `0`, interval `2`, `now = 5`: the wait is
`1` second (wake at `6 = 0 + 3·2`, the smallest multiple after `5`). -/
theorem scheduled_seconds_to_next_run_witness :
    calculateSecondsToNextRun 0 2 5 = 1 ∧ 0 ≤ calculateSecondsToNextRun 0 2 5 := by
  refine ⟨?_, (scheduled_seconds_to_next_run_correct 0 5 2 (by norm_num)).1⟩
  have h := (scheduled_seconds_to_next_run_correct 0 5 2 (by norm_num)).2.1
  rw [h]
  have hfloor : ⌊((5 : ℚ) - 0) / 2⌋ = 2 := by
    rw [Int.floor_eq_iff]
    norm_num
  rw [hfloor]
  norm_num

/-- C8: `RunOnce._run` invokes the work function exactly once and never
loops; the first-run delay is skipped when `first_run` is absent or in the
past, and otherwise waits until exactly `first_run`. -/
theorem run_once_single_invocation (first_run : Option ℚ) (now fr : ℚ) :
    (runOnceRun first_run now).invocation_times.length = 1 ∧
    (runOnceRun none now).delay = 0 ∧
    (fr ≤ now → (runOnceRun (some fr) now).delay = 0) ∧
    (now < fr →
      (runOnceRun (some fr) now).delay = fr - now ∧
      (runOnceRun (some fr) now).invocation_times = [fr]) := by
  unfold runOnceRun sleep_until_first_run
  refine ⟨by cases first_run <;> rfl, rfl, ?_, ?_⟩
  · intro h
    simp only
    rw [if_neg (by linarith)]
  · intro h
    simp only
    rw [if_pos (by linarith)]
    exact ⟨rfl, by norm_num⟩

/-- Closed instance of C8: a `RunOnce` with `first_run = 7` started at time
`3` waits `4` seconds and fires exactly once, at `7`; with `first_run` in the
past (`2`) it fires immediately. -/
theorem run_once_single_invocation_witness :
    (runOnceRun (some 7) 3).delay = 7 - 3 ∧
    (runOnceRun (some 7) 3).invocation_times = [7] ∧
    (runOnceRun (some 2) 3).delay = 0 ∧
    (runOnceRun (some 2) 3).invocation_times.length = 1 := by
  have h1 := (run_once_single_invocation (some 7) 3 7).2.2.2 (by norm_num)
  have h2 := (run_once_single_invocation (some 2) 3 2).2.2.1 (by norm_num)
  have h3 := (run_once_single_invocation (some 2) 3 2).1
  exact ⟨h1.1, h1.2, h2, h3⟩

/-- C10: `check_memory` reports a warning exactly on a rising edge — when
the last recorded memory fraction is strictly below the warning threshold
and the current measured fraction is strictly above it — and in every case
the recorded fraction is updated to the current measurement. -/
theorem check_memory_rising_edge (last current warn : ℚ) :
    ((check_memory last current warn).1 = true ↔ last < warn ∧ warn < current) ∧
    (check_memory last current warn).2 = current := by
  unfold check_memory
  split_ifs with h1 h2 <;> simp_all

/-- Closed instance of C10: with threshold `4/5`, last `1/2` and current
`9/10` a warning fires; with last `9/10` (already above) and current `9/10`
it does not; the recorded value is updated either way. -/
theorem check_memory_rising_edge_witness :
    (check_memory (1/2) (9/10) (4/5)).1 = true ∧
    (check_memory (9/10) (9/10) (4/5)).1 = false ∧
    (check_memory (9/10) (9/10) (4/5)).2 = 9/10 := by
  have h1 := (check_memory_rising_edge (1/2) (9/10) (4/5)).1.mpr (by norm_num)
  have h2 := check_memory_rising_edge (9/10) (9/10) (4/5)
  refine ⟨h1, ?_, h2.2⟩
  by_contra hc
  have : (check_memory (9/10) (9/10) (4/5)).1 = true := by
    cases h : (check_memory (9/10) (9/10) (4/5)).1
    · exact absurd h hc
    · rfl
  have := h2.1.mp this
  linarith [this.1, this.2]

/-- C3, counterexample: at construction time `2024-01-01 13:00`, the partial
spec `{minute: 30}` resolves to `2024-01-01 00:30:00` — the hour is *not*
taken from the current wall-clock time (the claim says "the current hour at
:30:00", i.e. `13:30:00`). -/
theorem partial_minute_spec_counterexample :
    dict_to_first_run_datetime
        { year := 2024, month := 1, day := 1, hour := 13, minute := 0,
          second := 0, microsecond := 0 }
        { minute := some 30 } =
      .ok { year := 2024, month := 1, day := 1, hour := 0, minute := 30,
            second := 0, microsecond := 0 } ∧
    dict_to_first_run_datetime
        { year := 2024, month := 1, day := 1, hour := 13, minute := 0,
          second := 0, microsecond := 0 }
        { minute := some 30 } ≠
      .ok { year := 2024, month := 1, day := 1, hour := 13, minute := 30,
            second := 0, microsecond := 0 } := by
  refine ⟨rfl, ?_⟩
  intro h
  exact absurd (Except.ok.inj h) (by decide)

/-- C3, amended: `{hour: 8}` resolves as claimed to today at `08:00:00`,
filling year, month and day from the current time.  But because
`get_smallest_defined_time_interval` clamps its result up to `3`, a spec
whose smallest given field is below hour also fills only year, month and day
from the current time: `{minute: 30}` resolves to *today at 00:30:00* (hour
defaults to zero), not to the current hour at `:30:00`. -/
theorem dict_to_first_run_fill_behaviour (now : PyDateTime) (h8 m30 : ℕ) :
    dict_to_first_run_datetime now { hour := some h8 } =
      .ok { year := now.year, month := now.month, day := now.day,
            hour := h8, minute := 0, second := 0, microsecond := 0 } ∧
    dict_to_first_run_datetime now { minute := some m30 } =
      .ok { year := now.year, month := now.month, day := now.day,
            hour := 0, minute := m30, second := 0, microsecond := 0 } := by
  constructor <;> rfl

/-- C4: `start()` on an already-started task is a no-op, `stop()` on a
stopped (or never-started) task is a no-op that returns without error, and a
second consecutive `start()` or `stop()` leaves the state identical to the
first. -/
theorem start_stop_idempotent (s s2 : TaskState) (hid hid2 : ℕ) :
    (s.is_started = true → taskStart hid s = s) ∧
    (s.is_started = false → taskStop s = .ok s) ∧
    taskStart hid2 (taskStart hid s) = taskStart hid s ∧
    (taskStop s = .ok s2 → taskStop s2 = .ok s2) ∧
    taskStop periodicInitState = .ok periodicInitState := by
  refine ⟨?_, ?_, ?_, ?_, rfl⟩
  · intro h
    simp [taskStart, h]
  · intro h
    simp [taskStop, h]
  · unfold taskStart
    split_ifs <;> simp_all
  · intro h
    have h2 : s2.is_started = false := by
      unfold taskStop at h
      split_ifs at h with hs
      · cases ht : s.task with
        | none => rw [ht] at h; exact absurd h (by simp)
        | some hh =>
          rw [ht] at h
          injection h with hinj
          rw [← hinj]
      · injection h with hinj
        rw [← hinj]
        simpa using hs
    simp [taskStop, h2]

/-- Closed instance of C4: `stop()` on the never-started initial state is a
no-op, and a second `start()` right after a first is a no-op. -/
theorem start_stop_idempotent_witness :
    taskStop periodicInitState = .ok periodicInitState ∧
    taskStart 1 (taskStart 0 periodicInitState) = taskStart 0 periodicInitState := by
  have h := start_stop_idempotent periodicInitState periodicInitState 0 1
  exact ⟨h.2.1 rfl, h.2.2.1⟩

/-- C5, counterexample: after `start()` then `stop()` the task is stopped
(`is_started = false`) yet `self._task` still holds the cancelled handle —
`stop()` never assigns `self._task = None` — so the reachable state after a
completed start/stop pair violates the claimed "fully stopped = no handle"
invariant. -/
theorem task_state_invariant_counterexample :
    taskStop (taskStart 0 periodicInitState) =
      .ok { is_started := false, task := some { id := 0, cancelled := true } } ∧
    Reachable { is_started := false, task := some { id := 0, cancelled := true } } ∧
    ¬ fullyStoppedOrRunning
        { is_started := false, task := some { id := 0, cancelled := true } } := by
  refine ⟨rfl, ?_, ?_⟩
  · exact Reachable.stop (Reachable.start 0 Reachable.init) rfl
  · unfold fullyStoppedOrRunning
    decide

/-- C5, amended: every reachable state satisfies the weaker invariant that a
running task always holds a live (non-cancelled) handle, while a stopped
task holds either no handle at all (never started) or the cancelled handle
left behind by `stop()`. -/
theorem task_state_invariant_amended (s : TaskState) (hr : Reachable s) :
    (s.is_started = true → ∃ h, s.task = some h ∧ h.cancelled = false) ∧
    (s.is_started = false →
      s.task = none ∨ ∃ h, s.task = some h ∧ h.cancelled = true) := by
  induction hr with
  | init => simp [periodicInitState]
  | start hid hprev ih =>
    rename_i t
    unfold taskStart
    split_ifs with hc
    · simp
    · exact ih
  | stop hprev heq ih =>
    rename_i t t2
    unfold taskStop at heq
    split_ifs at heq with hc
    · cases ht : t.task with
      | none => rw [ht] at heq; exact absurd heq (by simp)
      | some hh =>
        rw [ht] at heq
        injection heq with hinj
        rw [← hinj]
        constructor
        · intro hfalse
          simp at hfalse
        · intro _
          right
          exact ⟨_, rfl, rfl⟩
    · injection heq with hinj
      rw [← hinj]
      exact ih

/-- Closed instance of the amended C5 invariant at the concrete reachable
state reached by one completed start/stop pair. -/
theorem task_state_invariant_amended_witness :
    ({ is_started := false, task := some { id := 0, cancelled := true } } : TaskState).task =
        none ∨
      ∃ h, ({ is_started := false, task := some { id := 0, cancelled := true } } :
          TaskState).task = some h ∧ h.cancelled = true :=
  (task_state_invariant_amended
      { is_started := false, task := some { id := 0, cancelled := true } }
      (Reachable.stop (Reachable.start 0 Reachable.init) rfl)).2 rfl

/-- Helper for C6: a task whose loop has terminated stays terminated and
never invokes the work function again, whatever the scheduler does. -/
lemma runTrace_from_done (inputs : List (Bool × Bool)) :
    runTrace AsyncPC.done inputs = (AsyncPC.done, List.replicate inputs.length false) := by
  induction inputs with
  | nil => rfl
  | cons head tail ih =>
    obtain ⟨c, sp⟩ := head
    simp [runTrace, loopStep, ih, List.replicate]

/-- C6: once `stop()` has requested cancellation, the loop acknowledges at
its current suspension point without invoking the work function and is
`done` when `stop()`'s `await self._task` returns; from `done` no scheduler
step ever invokes the work function again; and `_stop_repeated_tasks`
(stopping each task in list order, awaiting each acknowledgment) leaves
every task `done` — no dangling background work. -/
theorem stop_halts_work (pc : AsyncPC) (c sp : Bool) (inputs : List (Bool × Bool))
    (pcs : List AsyncPC) :
    loopStep true sp pc = (AsyncPC.done, false) ∧
    stopTask pc = AsyncPC.done ∧
    loopStep c sp AsyncPC.done = (AsyncPC.done, false) ∧
    (∀ b ∈ (runTrace AsyncPC.done inputs).2, b = false) ∧
    (∀ q ∈ stopAllTasks pcs, q = AsyncPC.done) := by
  refine ⟨by cases pc <;> rfl, by cases pc <;> rfl, by cases c <;> rfl, ?_, ?_⟩
  · intro b hb
    rw [runTrace_from_done] at hb
    exact List.eq_of_mem_replicate hb
  · intro q hq
    simp only [stopAllTasks, List.mem_map] at hq
    obtain ⟨a, _, rfl⟩ := hq
    cases a <;> rfl

/-- Closed instance of C6: stopping a task suspended in its inter-iteration
sleep completes the loop, and a one-task `stop_all` leaves it `done`. -/
theorem stop_halts_work_witness :
    stopTask AsyncPC.sleepingLoop = AsyncPC.done ∧ AsyncPC.done = AsyncPC.done :=
  ⟨(stop_halts_work AsyncPC.sleepingLoop false false [] [AsyncPC.sleepingLoop]).2.1,
   (stop_halts_work AsyncPC.sleepingLoop false false [] [AsyncPC.sleepingLoop]).2.2.2.2
     AsyncPC.done (by simp [stopAllTasks, stopTask, loopStep])⟩

/-- Helper for C7: `dict_to_first_run_datetime` succeeds exactly when the
dict defines at least one recognized datetime field. -/
lemma dict_to_first_run_isOk (now : PyDateTime) (d : FirstRunDict) :
    exceptIsOk (dict_to_first_run_datetime now d) = firstRunDictHasField d := by
  rcases d with ⟨y, mo, da, hh, mi, se, us⟩
  cases y <;> cases mo <;> cases da <;> cases hh <;> cases mi <;> cases se <;> cases us <;> rfl

/-- Helper for C9 (and C7): a successful `Scheduled` construction stores
exactly the kwargs value produced by `Periodic.__init__`'s normalization. -/
lemma scheduledInit_kwargs (now : PyDateTime) (fr : FirstRunArg) (ti : TimeIntervalArg)
    (kw : KwargsArg) (s : ScheduledState) (h : scheduledInit now fr ti kw = .ok s) :
    s.kwargs = periodicStoreKwargs kw := by
  unfold scheduledInit at h
  split at h
  · split at h
    · exact absurd h (by simp)
    · split at h
      · exact absurd h (by simp)
      · injection h with h2
        rw [← h2]
  · split at h
    · exact absurd h (by simp)
    · injection h with h2
      rw [← h2]

/-- Helper for C7: the full interval check (type dispatch plus `timedelta`'s
overflow check) succeeds exactly for a `timedelta`, or an `int` whose
floor-division day count is within `timedelta`'s representable range. -/
lemma ensureTimeIntervalChecked_ok (ti : TimeIntervalArg) :
    exceptIsOk (ensureTimeIntervalChecked ti) = true ↔
      (ti ≠ TimeIntervalArg.otherArg ∧
        ∀ n, ti = TimeIntervalArg.intArg n →
          -999999999 ≤ Int.fdiv n 86400 ∧ Int.fdiv n 86400 ≤ 999999999) := by
  cases ti with
  | intArg n =>
    simp only [ensureTimeIntervalChecked, timedeltaFromSeconds]
    split_ifs with h
    · simp only [exceptIsOk]
      constructor
      · intro _
        refine ⟨by simp, ?_⟩
        intro m hm
        injection hm with hmn
        rw [← hmn]
        exact h
      · intro _
        trivial
    · simp only [exceptIsOk]
      constructor
      · intro hfalse
        exact absurd hfalse (by simp)
      · rintro ⟨_, h2⟩
        exact absurd (h2 n rfl) h
  | timedeltaArg s =>
    simp [ensureTimeIntervalChecked, exceptIsOk]
  | otherArg =>
    simp [ensureTimeIntervalChecked, exceptIsOk]

/-- Helper for C7: full anchor-dict resolution succeeds exactly when the
dict has a recognized field and the resolved field values pass the
`datetime` constructor's range check. -/
lemma dict_to_first_run_checked_ok (now : PyDateTime) (d : FirstRunDict) :
    exceptIsOk (dict_to_first_run_datetime_checked now d) = true ↔
      (firstRunDictHasField d = true ∧
        ∀ dt, dict_to_first_run_datetime now d = .ok dt → pyDatetimeValid dt = true) := by
  unfold dict_to_first_run_datetime_checked
  have hf := dict_to_first_run_isOk now d
  cases hD : dict_to_first_run_datetime now d with
  | error e =>
    rw [hD] at hf
    simp only [exceptIsOk] at hf ⊢
    constructor
    · intro hfalse
      exact absurd hfalse (by simp)
    · rintro ⟨h1, _⟩
      rw [h1] at hf
      exact absurd hf (by simp)
  | ok dt =>
    rw [hD] at hf
    simp only [exceptIsOk] at hf
    simp only []
    split_ifs with hv
    · simp only [exceptIsOk]
      constructor
      · intro _
        refine ⟨hf.symm, ?_⟩
        intro dt2 hdt2
        injection hdt2 with hdd
        rw [← hdd]
        exact hv
      · intro _
        trivial
    · simp only [exceptIsOk]
      constructor
      · intro hfalse
        exact absurd hfalse (by simp)
      · rintro ⟨_, h2⟩
        exact absurd (h2 dt rfl) hv

/-- C7, counterexample: two inputs inside the claim's "valid" region fail
construction.  `Scheduled(func, {"month": 13}, 60)` has a recognized field
name and an `int` interval, yet `datetime.datetime(...)` raises
`ValueError` on the out-of-range month; and
`Scheduled(func, {"hour": 8}, 86400000000000000)` has an integer-seconds
interval, yet `timedelta(seconds=...)` raises `OverflowError` (the day
count `10^12` exceeds `999999999`).  So construction does not fail *exactly*
when the interval has the wrong type or the dict has no recognized field. -/
theorem construction_validation_counterexample :
    firstRunDictHasField { month := some 13 } = true ∧
    exceptIsOk
        (scheduledInitChecked ⟨2024, 1, 1, 13, 0, 0, 0⟩
          (FirstRunArg.dictArg { month := some 13 }) (TimeIntervalArg.intArg 60)
          KwargsArg.noneArg) = false ∧
    exceptIsOk
        (scheduledInitChecked ⟨2024, 1, 1, 13, 0, 0, 0⟩
          (FirstRunArg.dictArg { hour := some 8 })
          (TimeIntervalArg.intArg 86400000000000000) KwargsArg.noneArg) = false := by
  refine ⟨rfl, rfl, ?_⟩
  simp only [scheduledInitChecked, ensureTimeIntervalChecked, timedeltaFromSeconds]
  norm_num [dict_to_first_run_datetime_checked, dict_to_first_run_datetime,
    get_smallest_defined_time_interval, mergedField, pyDatetimeValid, daysInMonth,
    exceptIsOk, Int.fdiv]

/-- C7, amended: construction fails fast (in the constructor, before any
task starts) exactly when the interval is neither an `int` nor a
`timedelta`, or it is an `int` number of seconds overflowing `timedelta`'s
±999999999-day range, or the anchor dict contains none of the recognized
field names, or the resolved anchor fields fail the `datetime` constructor's
range check; all other inputs in the annotated domain construct without
error. -/
theorem construction_validation_amended (now : PyDateTime) (fr : FirstRunArg)
    (ti : TimeIntervalArg) (kw : KwargsArg) :
    exceptIsOk (scheduledInitChecked now fr ti kw) = true ↔
      ((ti ≠ TimeIntervalArg.otherArg ∧
          ∀ n, ti = TimeIntervalArg.intArg n →
            -999999999 ≤ Int.fdiv n 86400 ∧ Int.fdiv n 86400 ≤ 999999999) ∧
        ∀ d, fr = FirstRunArg.dictArg d →
          firstRunDictHasField d = true ∧
          ∀ dt, dict_to_first_run_datetime now d = .ok dt → pyDatetimeValid dt = true) := by
  rw [← ensureTimeIntervalChecked_ok]
  cases fr with
  | datetimeArg dt0 =>
    simp only [scheduledInitChecked]
    cases hE : ensureTimeIntervalChecked ti with
    | error e => simp [exceptIsOk, hE]
    | ok tiv => simp [exceptIsOk, hE]
  | dictArg d =>
    have hd := dict_to_first_run_checked_ok now d
    simp only [scheduledInitChecked]
    cases hD : dict_to_first_run_datetime_checked now d with
    | error e =>
      rw [hD] at hd
      simp only [exceptIsOk] at hd ⊢
      simp only [FirstRunArg.dictArg.injEq, forall_eq']
      constructor
      · intro hfalse
        exact absurd hfalse (by simp)
      · rintro ⟨_, h2⟩
        exact absurd (hd.mpr h2) (by simp)
    | ok frv =>
      rw [hD] at hd
      simp only [exceptIsOk] at hd
      have hdc := hd.mp trivial
      cases hE : ensureTimeIntervalChecked ti with
      | error e =>
        simp only [exceptIsOk, FirstRunArg.dictArg.injEq, forall_eq']
        constructor
        · intro hfalse
          exact absurd hfalse (by simp)
        · rintro ⟨h1, _⟩
          exact absurd h1 (by simp)
      | ok tiv =>
        simp only [exceptIsOk, FirstRunArg.dictArg.injEq, forall_eq']
        constructor
        · intro _
          exact ⟨by trivial, hdc⟩
        · intro _
          trivial

/-- Closed instance of the amended C7: `Scheduled(func, {"hour": 8}, 60)` —
an in-range dict and a small `int` interval — constructs without error. -/
theorem construction_validation_amended_witness :
    exceptIsOk
        (scheduledInitChecked ⟨2024, 1, 1, 13, 0, 0, 0⟩
          (FirstRunArg.dictArg { hour := some 8 }) (TimeIntervalArg.intArg 60)
          KwargsArg.noneArg) = true :=
  (construction_validation_amended ⟨2024, 1, 1, 13, 0, 0, 0⟩
      (FirstRunArg.dictArg { hour := some 8 }) (TimeIntervalArg.intArg 60)
      KwargsArg.noneArg).mpr
    ⟨⟨by simp,
      by intro n hn; injection hn with hmn; rw [← hmn]; constructor <;> decide⟩,
     by
      intro d hd
      injection hd with hdd
      rw [← hdd]
      exact ⟨rfl, by intro dt hdt; injection hdt with h2; rw [← h2]; rfl⟩⟩

/-- C9: `Scheduled.__init__`'s default `kwargs` value is `tuple()`, which
`Periodic.__init__`'s normalization (which maps only `None` to `{}`) stores
unchanged; consequently for any `Scheduled` task constructed without an
explicit `kwargs` argument, the stored kwargs is the empty tuple, and every
attempted work-function invocation (`self.func(*self.args, **self.kwargs)`
in `Scheduled._run`) raises `TypeError` when the tuple is unpacked with
`**`. -/
theorem scheduled_default_kwargs_type_error (now : PyDateTime) (fr : FirstRunArg)
    (ti : TimeIntervalArg) (s : ScheduledState) :
    scheduledKwargsDefault = KwargsArg.emptyTupleArg ∧
    periodicStoreKwargs KwargsArg.noneArg = KwargsArg.dictArg [] ∧
    periodicStoreKwargs KwargsArg.emptyTupleArg = KwargsArg.emptyTupleArg ∧
    (scheduledInitDefault now fr ti = .ok s →
      s.kwargs = KwargsArg.emptyTupleArg ∧
      scheduledInvokeFunc s = .error "argument after ** must be a mapping, not tuple") := by
  refine ⟨rfl, rfl, rfl, ?_⟩
  intro h
  have hk : s.kwargs = KwargsArg.emptyTupleArg :=
    scheduledInit_kwargs now fr ti scheduledKwargsDefault s h
  refine ⟨hk, ?_⟩
  unfold scheduledInvokeFunc
  rw [hk]
  rfl

/-- Closed instance of C9: `Scheduled(func, {"hour": 8}, 60)` — exactly the
shape used in `main.py` and `tests/test_util.py` — stores the empty tuple as
kwargs and its work-function invocation raises `TypeError`. -/
theorem scheduled_default_kwargs_type_error_witness :
    scheduledInvokeFunc
        ⟨((60 : ℤ) : ℚ), ⟨2024, 1, 1, 8, 0, 0, 0⟩, KwargsArg.emptyTupleArg, false, none⟩ =
      .error "argument after ** must be a mapping, not tuple" :=
  ((scheduled_default_kwargs_type_error ⟨2024, 1, 1, 13, 0, 0, 0⟩
      (FirstRunArg.dictArg { hour := some 8 }) (TimeIntervalArg.intArg 60)
      ⟨((60 : ℤ) : ℚ), ⟨2024, 1, 1, 8, 0, 0, 0⟩, KwargsArg.emptyTupleArg, false, none⟩).2.2.2
    rfl).2

end LswSlackbot
